import Mathlib

/-!
Verification of the batch reconciliation engine of the 10k-sentences
pipeline (`audio_generator.py`, `translate_sheet_generator.py`).

The Python source is shallowly embedded: pure helpers become Lean
functions on `List String` / `Nat` / `Int` / `Rat`; the outcomes of the
remote calls (sheet reads and writes, speech synthesis, file upload) are
passed in explicitly as data, and exceptions are modelled with `Except`.
-/

set_option maxHeartbeats 1000000
set_option linter.unusedVariables false

namespace TenK

deriving instance DecidableEq for Except

/-- Python's `str.strip()`: remove whitespace from both ends. -/
def pyStrip (s : String) : String :=
  String.mk (((s.data.dropWhile Char.isWhitespace).reverse.dropWhile Char.isWhitespace).reverse)

/-- Python's `int(s)` on a string: an optional sign and a non-empty run
of digits after stripping surrounding whitespace; `none` models the
`ValueError` raised on any other input. -/
def pyInt (s : String) : Option Int :=
  let t := (pyStrip s).data
  let signed : Bool × List Char :=
    match t with
    | '-' :: rest => (true, rest)
    | '+' :: rest => (false, rest)
    | _ => (false, t)
  if signed.2 = [] then none
  else if signed.2.all Char.isDigit then
    let n : Nat := signed.2.foldl (fun acc c => acc * 10 + (c.toNat - 48)) 0
    some (if signed.1 then -(n : Int) else (n : Int))
  else none

/-- Python's `str.lower()` (ASCII case folding suffices here). -/
def pyLower (s : String) : String :=
  String.mk (s.data.map Char.toLower)

/-- Python's `f"{n:06}"`: decimal rendering zero-padded to width 6, the
sign counting towards the width. -/
def pad6 (n : Int) : String :=
  let a := toString n.natAbs
  if n < 0 then String.mk ('-' :: (List.replicate (5 - a.length) '0' ++ a.data))
  else String.mk (List.replicate (6 - a.length) '0' ++ a.data)

/-- `find_rows_needing_audio` (audio_generator.py, lines 222-231): walk
the zipped audio/text columns; a row with blank text is skipped, a row
with non-blank text and a blank audio link is reported at its absolute
row number.  The `zip` of the Python loop truncates to the shorter
column; the fallthrough case of the match mirrors that. -/
def find_rows_needing_audio : List String → List String → Nat → List Nat
  | audio_link :: audios, text :: texts, start_row =>
    if pyStrip text = "" then find_rows_needing_audio audios texts (start_row + 1)
    else if pyStrip audio_link = "" then
      start_row :: find_rows_needing_audio audios texts (start_row + 1)
    else find_rows_needing_audio audios texts (start_row + 1)
  | _, _, _ => []

/-- The gap predicate at 0-based position `i` of the two columns. -/
def gapAt (markers sources : List String) (i : Nat) : Bool :=
  (pyStrip (sources.getD i "") != "") && (pyStrip (markers.getD i "") == "")

/-- The loop body of `exponential_backoff_retry` (audio_generator.py,
lines 190-200), starting at attempt index `k` with `remaining` further
attempts allowed after the current one.  `attempts k` is the outcome of
the `k`-th call of `func`; `jitter k` is the value drawn from
`random.uniform(0, 1)` after a failure of attempt `k`.  Returns the
final outcome together with the list of sleep delays, in order. -/
def retryGo {α : Type} (attempts : Nat → Except String α) (jitter : Nat → Rat)
    (base_delay max_delay : Rat) : Nat → Nat → Except String α × List Rat
  | k, remaining =>
    match attempts k with
    | .ok a => (.ok a, [])
    | .error e =>
      match remaining with
      | 0 => (.error e, [])
      | r + 1 =>
        let d := min (base_delay * 2 ^ k + jitter k) max_delay
        let rest := retryGo attempts jitter base_delay max_delay (k + 1) r
        (rest.1, d :: rest.2)

/-- `exponential_backoff_retry` (audio_generator.py, lines 190-200).
`for attempt in range(max_retries)` with re-raise on the last failure;
when `max_retries = 0` the loop body never runs and Python falls through
returning `None`, modelled by the outer `none`. -/
def exponential_backoff_retry {α : Type} (attempts : Nat → Except String α)
    (jitter : Nat → Rat) (max_retries : Nat) (base_delay max_delay : Rat) :
    Option (Except String α) × List Rat :=
  match max_retries with
  | 0 => (none, [])
  | n + 1 =>
    let r := retryGo attempts jitter base_delay max_delay 0 n
    (some r.1, r.2)

/-- The `--audio_encoding` choices (audio_generator.py, line 368). -/
inductive Encoding where
  | MP3
  | OGG_OPUS
  | LINEAR16
deriving DecidableEq, Repr

/-- `get_mime_type` (audio_generator.py, lines 147-154); the dict
default `audio/mpeg` is unreachable because argparse restricts the
encoding to the three choices. -/
def get_mime_type : Encoding → String
  | .MP3 => "audio/mpeg"
  | .OGG_OPUS => "audio/ogg"
  | .LINEAR16 => "audio/wav"

/-- The external outcomes a single row's processing can observe:
per-attempt results of the speech synthesis, the one-shot fetch of the
row's sentence id (`.error` is an exception raised by the API call, `.ok`
the fetched cell value, `""` when the cell is missing), per-attempt
results of the Drive upload, per-attempt results of the marker-cell
write, and the jitter stream shared by the retry loops. -/
structure RowEnv where
  synthAttempts : Nat → Except String String
  idFetch : Except String String
  uploadAttempts : Nat → Except String String
  writeAttempts : Nat → Except String Unit
  jitter : Nat → Rat

/-- `synthesize_speech_with_retry` (audio_generator.py, lines 202-210):
run the retry executor and swallow any final exception into `None`. -/
def synthesize_speech_with_retry (env : RowEnv) : Option String :=
  match (exponential_backoff_retry env.synthAttempts env.jitter 5 1 16).1 with
  | some (.ok a) => some a
  | _ => none

/-- `upload_audio_file_with_retry` (audio_generator.py, lines 212-220):
run the retry executor and swallow any final exception into `None`. -/
def upload_audio_file_with_retry (env : RowEnv) : Option String :=
  match (exponential_backoff_retry env.uploadAttempts env.jitter 5 1 16).1 with
  | some (.ok a) => some a
  | _ => none

/-- `update_sheet_cells_with_retry` (audio_generator.py, lines 98-116):
run the retry executor; an `HttpError` or any other exception escaping
it is caught, logged, and turned into `None`. -/
def update_sheet_cells_with_retry (attempts : Nat → Except String Unit)
    (jitter : Nat → Rat) (max_retries : Nat) : Option Unit :=
  match (exponential_backoff_retry attempts jitter max_retries 1 16).1 with
  | some (.ok a) => some a
  | _ => none

/-- `process_row` (audio_generator.py, lines 233-274).  The returned
list holds the sheet mutations actually performed (row number and
written value); `.error` models an exception escaping `process_row`
uncaught.  Note: the id fetch (lines 250-254) and `int(sentence_id)`
(line 261) sit outside every `try`, so their failures escape; the
`if not link` guard (line 265) skips the row when the upload result is
falsy — `None` from retry exhaustion or an empty-string link — and the
`if not audio_content` guard does likewise for falsy audio bytes; the
filename hardcodes the `.mp3` suffix whatever `audio_encoding` is, the
encoding only reaches the synthesis and upload payloads, which are
abstracted into `env`. -/
def process_row (row_num : Nat) (text : String) (env : RowEnv)
    (audio_encoding : Encoding) : Except String (List (Nat × String)) :=
  if pyStrip text = "" then .ok []
  else
    match synthesize_speech_with_retry env with
    | none => .ok []
    | some audio_content =>
      if audio_content = "" then .ok []
      else
        match env.idFetch with
        | .error e => .error e
        | .ok sentence_id =>
          if pyStrip sentence_id = "" then .ok []
          else
            match pyInt sentence_id with
            | none => .error "ValueError"
            | some n =>
              let filename := "sentence_" ++ pad6 n ++ ".mp3"
              match upload_audio_file_with_retry env with
              | none => .ok []
              | some link =>
                if link = "" then .ok []
                else
                  let hyperlink_formula :=
                    "=HYPERLINK(\"" ++ link ++ "\", \"" ++ filename ++ "\")"
                  match update_sheet_cells_with_retry env.writeAttempts env.jitter 5 with
                  | some _ => .ok [(row_num, hyperlink_formula)]
                  | none => .ok []

/-- Pad a column with empty strings up to length `n`. -/
def padTo (l : List String) (n : Nat) : List String :=
  l ++ List.replicate (n - l.length) ""

/-- Trailing empty cells are absent from a Sheets `values().get` reply. -/
def dropTrailingEmpty (l : List String) : List String :=
  (l.reverse.dropWhile (· == "")).reverse

/-- The trailing-blank truncation loop of `read_sheet_column`
(audio_generator.py, lines 92-94): pop while the last value strips to
empty. -/
def dropTrailingBlank (l : List String) : List String :=
  (l.reverse.dropWhile (fun s => pyStrip s == "")).reverse

/-- The raw ranged read underlying `read_sheet_column`: `col` is the
full stored column from `start_row` downwards; a `limit` bounds the A1
range, and the API omits trailing empty cells. -/
def apiReadColumn (col : List String) (limit : Option Nat) : List String :=
  dropTrailingEmpty (match limit with | some n => col.take n | none => col)

/-- `read_sheet_column` (audio_generator.py, lines 71-96): with
`force_row_count` the result is padded with empty strings to exactly
that many rows; without it trailing blank values are truncated. -/
def read_sheet_column (col : List String) (force_row_count : Option Nat) : List String :=
  let values := apiReadColumn col force_row_count
  match force_row_count with
  | some n => padTo values n
  | none => dropTrailingBlank values

/-- The sheet state the driver touches: the three header cells and the
text/audio columns from `start_row` downwards (cells beyond the lists
are empty). -/
structure Store where
  textHeader : String
  audioHeader : String
  idHeader : String
  textRaw : List String
  audioRaw : List String
deriving DecidableEq, Repr

/-- Write value `v` into cell `i` of a column, extending the stored
column with empty cells if the row lies beyond it. -/
def setCell (col : List String) (i : Nat) (v : String) : List String :=
  (padTo col (i + 1)).set i v

/-- Apply the sheet mutations reported by `process_row`. -/
def applyWrites (start_row : Nat) (st : Store) (writes : List (Nat × String)) : Store :=
  writes.foldl
    (fun acc w => { acc with audioRaw := setCell acc.audioRaw (w.1 - start_row) w.2 }) st

/-- `ensure_column_header` (audio_generator.py, lines 118-125) as called
from `main` (line 388): overwrite the audio column header with
`audio_file`. -/
def ensure_column_header (st : Store) : Store :=
  { st with audioHeader := "audio_file" }

/-- `validate_sheet_structure` (audio_generator.py, lines 282-329) as a
pass/fail check: each header must be non-blank and its lowercasing must
equal the required name. -/
def validate_sheet_structure (text_header audio_link_header id_header : String) : Bool :=
  (pyStrip text_header != "") && (pyStrip audio_link_header != "")
    && (pyStrip id_header != "")
    && (pyLower text_header == "translation")
    && (pyLower audio_link_header == "audio_file")
    && (pyLower id_header == "sentence_id")

/-- Observable steps of one driver run, in execution order. -/
inductive Event where
  | ensureHeader
  | readText
  | readAudio
  | computeGap
  | createFolder
  | validate
  | processRow (row : Nat)
deriving DecidableEq, Repr

/-- How a driver run ends. -/
inductive Outcome where
  | structuralAbort
  | nothingToDo
  | crashed (e : String)
  | completed
deriving DecidableEq, Repr

/-- The driver arguments the model depends on. -/
structure Args where
  start_row : Nat
  max_rows : Option Nat
  audio_encoding : Encoding

/-- The result of one driver run: its event trace, its outcome, and the
final sheet state. -/
structure RunResult where
  trace : List Event
  outcome : Outcome
  store : Store
deriving DecidableEq, Repr

/-- The row loop of `main` (audio_generator.py, lines 424-428): each gap
row in order, `text = text_col_values[row_num - start_row]`, then
`process_row`; there is no per-row exception handler, so an `.error`
escaping `process_row` aborts the whole run. -/
def runRows (args : Args) (text_col : List String) (envs : Nat → RowEnv) (st : Store) :
    List Nat → List Event × Outcome × Store
  | [] => ([], .completed, st)
  | r :: rs =>
    let text := text_col.getD (r - args.start_row) ""
    match process_row r text (envs r) args.audio_encoding with
    | .error e => ([], .crashed e, st)
    | .ok writes =>
      let st' := applyWrites args.start_row st writes
      let rest := runRows args text_col envs st' rs
      (.processRow r :: rest.1, rest.2)

/-- The `--max_rows` truncation (audio_generator.py, lines 416-418):
keep the first `n` gap rows when a cap is given. -/
def selectRows (max_rows : Option Nat) (gap : List Nat) : List Nat :=
  match max_rows with
  | some n => gap.take n
  | none => gap

/-- `main` (audio_generator.py, lines 358-430), from the
`ensure_column_header` call on: read the text column, read the audio
column forced to the same length, check the lengths, compute the gap,
exit early when it is empty, create the folder, apply `--max_rows`,
validate the headers, then process each row.  `envs r` carries the
external outcomes row `r` would observe. -/
def mainRun (args : Args) (st0 : Store) (envs : Nat → RowEnv) : RunResult :=
  let st := ensure_column_header st0
  let text_col := read_sheet_column st.textRaw none
  let audio_col := read_sheet_column st.audioRaw (some text_col.length)
  if audio_col.length ≠ text_col.length then
    ⟨[.ensureHeader, .readText, .readAudio], .structuralAbort, st⟩
  else
    let gap := find_rows_needing_audio audio_col text_col args.start_row
    if gap.isEmpty then
      ⟨[.ensureHeader, .readText, .readAudio, .computeGap], .nothingToDo, st⟩
    else
      let rows := selectRows args.max_rows gap
      if validate_sheet_structure st.textHeader st.audioHeader st.idHeader then
        let rest := runRows args text_col envs st rows
        ⟨[.ensureHeader, .readText, .readAudio, .computeGap, .createFolder, .validate]
            ++ rest.1,
          rest.2.1, rest.2.2⟩
      else
        ⟨[.ensureHeader, .readText, .readAudio, .computeGap, .createFolder, .validate],
          .structuralAbort, st⟩

/-- The gap set a fresh run would compute on a store. -/
def gapOfStore (args : Args) (st : Store) : List Nat :=
  let text_col := read_sheet_column st.textRaw none
  let audio_col := read_sheet_column st.audioRaw (some text_col.length)
  find_rows_needing_audio audio_col text_col args.start_row

/-- All external calls of one row succeed: some synthesis attempt
returns non-empty audio, the id cell is fetched, non-blank and parses as
an integer, some upload attempt returns a non-empty link (an empty link
is falsy and makes the row a skip), and some write attempt goes
through. -/
def rowSucceeds (env : RowEnv) : Prop :=
  (∃ c, synthesize_speech_with_retry env = some c ∧ c ≠ "")
    ∧ (∃ sid nid, env.idFetch = .ok sid ∧ pyStrip sid ≠ "" ∧ pyInt sid = some nid)
    ∧ (∃ link, upload_audio_file_with_retry env = some link ∧ link ≠ "")
    ∧ update_sheet_cells_with_retry env.writeAttempts env.jitter 5 = some ()

/-- Modelled from the spec: the audio container extension implied by the
chosen audio encoding ("suffixed with the audio container extension
implied by the encoding").  The source has no such function; its
filename hardcodes `.mp3`.  This is the spec side of the comparison. -/
def audioContainerExtension_spec : Encoding → String
  | .MP3 => "mp3"
  | .OGG_OPUS => "ogg"
  | .LINEAR16 => "wav"

/-- Python's `s.startswith(pre)`, at the character-list level so that it
evaluates inside the kernel. -/
def pyStartsWith (s pre : String) : Bool :=
  List.isPrefixOf pre.data s.data

/-- The success condition of `wait_for_translations`
(translate_sheet_generator.py, line 45): exactly `num_rows` rows came
back, every row is non-empty, and no first cell starts with `=`. -/
def translationsResolved (num_rows : Nat) (values : List (List String)) : Bool :=
  (values.length == num_rows)
    && values.all (fun row => (!row.isEmpty) && (!pyStartsWith (row.headD "") "="))

/-- `wait_for_translations` (translate_sheet_generator.py, lines 35-50):
re-read until the success condition holds, sleeping 15 seconds between
cycles.  `reads i` is the reply of the `i`-th read; the Python loop is
unbounded, which the model captures by quantifying over the `fuel`
bound; the returned list holds the sleep durations performed. -/
def wait_for_translations (reads : Nat → List (List String)) (num_rows : Nat) :
    Nat → Nat → Option (List (List String)) × List Nat
  | _, 0 => (none, [])
  | i, fuel + 1 =>
    let values := reads i
    if translationsResolved num_rows values then (some values, [])
    else
      let rest := wait_for_translations reads num_rows (i + 1) fuel
      (rest.1, 15 :: rest.2)

/-- A row environment in which every external call succeeds at once. -/
def envAllOk : RowEnv where
  synthAttempts := fun _ => .ok "audio"
  idFetch := .ok "42"
  uploadAttempts := fun _ => .ok "http://drive/x"
  writeAttempts := fun _ => .ok ()
  jitter := fun _ => 0

/-- Speech synthesis fails on every attempt. -/
def envSynthFail : RowEnv :=
  { envAllOk with synthAttempts := fun _ => .error "TTS down" }

/-- The Drive upload fails on every attempt. -/
def envUploadFail : RowEnv :=
  { envAllOk with uploadAttempts := fun _ => .error "Drive down" }

/-- The marker-cell write fails on every attempt. -/
def envWriteFail : RowEnv :=
  { envAllOk with writeAttempts := fun _ => .error "Sheets down" }

/-- The fetch of the sentence-id cell raises. -/
def envFetchError : RowEnv :=
  { envAllOk with idFetch := .error "HttpError" }

/-- The sentence-id cell holds a value `int()` cannot parse. -/
def envBadId : RowEnv :=
  { envAllOk with idFetch := .ok "abc" }

/-- A small sheet with valid headers, one gap row (absolute row 2), one
empty-text row and one already-marked row, for `start_row = 2`. -/
def storeDemo : Store where
  textHeader := "Translation"
  audioHeader := "whatever"
  idHeader := "Sentence_ID"
  textRaw := ["hola", "", "mundo"]
  audioRaw := ["", "", "x"]

/-- `storeDemo` with a wrong text-column header. -/
def storeBadHeader : Store :=
  { storeDemo with textHeader := "Sentence" }

/-- Default driver arguments for the demo sheet. -/
def argsDemo : Args where
  start_row := 2
  max_rows := none
  audio_encoding := .MP3

/-- A read stream whose first reply still holds a formula and whose
second reply is resolved (one expected row). -/
def demoReads : Nat → List (List String) :=
  fun i => if i = 0 then [["=GOOGLETRANSLATE"]] else [["hola"]]

theorem find_rows_needing_audio_eq (markers sources : List String) (start : Nat) :
    find_rows_needing_audio markers sources start =
      ((List.range (min markers.length sources.length)).filter
        (gapAt markers sources)).map (start + ·) := by
  induction markers generalizing sources start with
  | nil => simp [find_rows_needing_audio]
  | cons m ms ih =>
    cases sources with
    | nil => simp [find_rows_needing_audio]
    | cons s ss =>
      have hmin : min (m :: ms).length (s :: ss).length = min ms.length ss.length + 1 := by
        simp [List.length_cons, Nat.succ_min_succ]
      have hcomp : ∀ i : Nat, gapAt (m :: ms) (s :: ss) (Nat.succ i) = gapAt ms ss i :=
        fun _ => rfl
      have hmapfilter :
          ((List.range (min ms.length ss.length)).map Nat.succ).filter (gapAt (m :: ms) (s :: ss))
            = ((List.range (min ms.length ss.length)).filter (gapAt ms ss)).map Nat.succ := by
        rw [List.filter_map]
        exact congrArg _ (List.filter_congr fun i _ => hcomp i)
      have key :
          (((List.range (min ms.length ss.length)).filter (gapAt ms ss)).map Nat.succ).map
              (start + ·)
            = find_rows_needing_audio ms ss (start + 1) := by
        rw [ih ss (start + 1), List.map_map]
        apply List.map_congr_left
        intro i _
        simp only [Function.comp]
        omega
      rw [hmin, List.range_succ_eq_map, List.filter_cons]
      by_cases hs : pyStrip s = ""
      · rw [show gapAt (m :: ms) (s :: ss) 0 = false by
          simp [gapAt, List.getD_cons_zero, hs]]
        rw [if_neg (by decide : ¬(false = true)), hmapfilter, key]
        simp only [find_rows_needing_audio, if_pos hs]
      · by_cases hm : pyStrip m = ""
        · rw [show gapAt (m :: ms) (s :: ss) 0 = true by
            simp [gapAt, List.getD_cons_zero, hs, hm]]
          rw [if_pos (rfl : (true : Bool) = true), List.map_cons, hmapfilter, key]
          simp only [find_rows_needing_audio, if_neg hs, if_pos hm, Nat.add_zero]
        · rw [show gapAt (m :: ms) (s :: ss) 0 = false by
            simp [gapAt, List.getD_cons_zero, hs, hm]]
          rw [if_neg (by decide : ¬(false = true)), hmapfilter, key]
          simp only [find_rows_needing_audio, if_neg hs, if_neg hm]

theorem mem_find_rows_needing_audio (markers sources : List String) (start r : Nat) :
    r ∈ find_rows_needing_audio markers sources start ↔
      ∃ i, i < markers.length ∧ i < sources.length ∧
        pyStrip (sources.getD i "") ≠ "" ∧ pyStrip (markers.getD i "") = "" ∧ r = start + i := by
  rw [find_rows_needing_audio_eq]
  simp only [List.mem_map, List.mem_filter, List.mem_range, lt_min_iff, gapAt,
    Bool.and_eq_true, bne_iff_ne, beq_iff_eq]
  constructor
  · rintro ⟨i, ⟨⟨h1, h2⟩, h3, h4⟩, h5⟩
    exact ⟨i, h1, h2, h3, h4, h5.symm⟩
  · rintro ⟨i, h1, h2, h3, h4, h5⟩
    exact ⟨i, ⟨⟨h1, h2⟩, h3, h4⟩, h5.symm⟩

theorem retryGo_length {α : Type} (attempts : Nat → Except String α) (jitter : Nat → Rat)
    (b d : Rat) (k remaining : Nat) :
    (retryGo attempts jitter b d k remaining).2.length ≤ remaining := by
  induction remaining generalizing k with
  | zero =>
    rw [retryGo]
    cases attempts k <;> simp
  | succ r ih =>
    rw [retryGo]
    cases attempts k with
    | ok a => simp
    | error e =>
      simpa using ih (k + 1)

theorem retryGo_delay {α : Type} (attempts : Nat → Except String α) (jitter : Nat → Rat)
    (b d : Rat) (k remaining : Nat) :
    ∀ i, i < (retryGo attempts jitter b d k remaining).2.length →
      (retryGo attempts jitter b d k remaining).2.getD i 0
        = min (b * 2 ^ (k + i) + jitter (k + i)) d := by
  induction remaining generalizing k with
  | zero =>
    rw [retryGo]
    cases attempts k <;> simp
  | succ r ih =>
    rw [retryGo]
    cases attempts k with
    | ok a => simp
    | error e =>
      intro i hi
      cases i with
      | zero => simp only [List.getD_cons_zero, Nat.add_zero]
      | succ j =>
        simp only [List.length_cons, Nat.succ_lt_succ_iff] at hi
        have := ih (k + 1) j hi
        simp only [List.getD_cons_succ]
        rw [show k + (j + 1) = k + 1 + j by omega]
        exact this

theorem retryGo_error {α : Type} (attempts : Nat → Except String α) (jitter : Nat → Rat)
    (b d : Rat) (k remaining : Nat) (e : String)
    (h : (retryGo attempts jitter b d k remaining).1 = .error e) :
    (retryGo attempts jitter b d k remaining).2.length = remaining
      ∧ attempts (k + remaining) = .error e := by
  induction remaining generalizing k with
  | zero =>
    rw [retryGo] at h ⊢
    cases hk : attempts k with
    | ok a => rw [hk] at h; simp at h
    | error e' =>
      rw [hk] at h
      dsimp only at h ⊢
      refine ⟨by simp, ?_⟩
      rw [Nat.add_zero, hk]
      exact h
  | succ r ih =>
    rw [retryGo] at h ⊢
    cases hk : attempts k with
    | ok a => rw [hk] at h; simp at h
    | error e' =>
      rw [hk] at h
      dsimp only at h ⊢
      have := ih (k + 1) h
      refine ⟨by simp [this.1], ?_⟩
      have h2 := this.2
      rwa [show k + 1 + r = k + (r + 1) by omega] at h2

/-- C3: the retry executor makes at most `max_retries` calls; the delay
slept after the failure of (1-based) attempt `k` is exactly
`min (base_delay * 2 ^ (k - 1) + jitter, max_delay)`; with the default
parameters every delay is at most `16 + 1`; and when the final attempt
fails its exception is re-raised to the caller unchanged. -/
theorem exponential_backoff_retry_spec {α : Type} (attempts : Nat → Except String α)
    (jitter : Nat → Rat) (max_retries : Nat) (base_delay max_delay : Rat)
    (hm : 1 ≤ max_retries) :
    (exponential_backoff_retry attempts jitter max_retries base_delay max_delay).2.length + 1
        ≤ max_retries
    ∧ (∀ i, i < (exponential_backoff_retry attempts jitter max_retries base_delay max_delay).2.length →
        (exponential_backoff_retry attempts jitter max_retries base_delay max_delay).2.getD i 0
          = min (base_delay * 2 ^ i + jitter i) max_delay)
    ∧ (∀ e, (exponential_backoff_retry attempts jitter max_retries base_delay max_delay).1
          = some (.error e) →
        (exponential_backoff_retry attempts jitter max_retries base_delay max_delay).2.length
            = max_retries - 1
          ∧ attempts (max_retries - 1) = .error e)
    ∧ (base_delay = 1 → max_delay = 16 →
        ∀ i, i < (exponential_backoff_retry attempts jitter max_retries base_delay max_delay).2.length →
          (exponential_backoff_retry attempts jitter max_retries base_delay max_delay).2.getD i 0
            ≤ 16 + 1) := by
  obtain ⟨n, rfl⟩ : ∃ n, max_retries = n + 1 := ⟨max_retries - 1, by omega⟩
  simp only [exponential_backoff_retry]
  refine ⟨?_, ?_, ?_, ?_⟩
  · have := retryGo_length attempts jitter base_delay max_delay 0 n
    omega
  · intro i hi
    simpa using retryGo_delay attempts jitter base_delay max_delay 0 n i hi
  · intro e he
    simp only [Option.some_inj] at he
    have := retryGo_error attempts jitter base_delay max_delay 0 n e he
    simpa using this
  · rintro rfl rfl i hi
    have := retryGo_delay attempts jitter (1 : Rat) (16 : Rat) 0 n i hi
    simp only [Nat.zero_add] at this
    rw [this]
    have h1 : min ((1 : Rat) * 2 ^ i + jitter i) 16 ≤ 16 := min_le_right _ _
    linarith

/-- Witness for C3: every attempt fails, default parameters. -/
theorem exponential_backoff_retry_spec_witness :
    (exponential_backoff_retry (fun _ => (.error "boom" : Except String Unit))
        (fun _ => (1 : Rat) / 2) 5 1 16).2.length + 1 ≤ 5
    ∧ (exponential_backoff_retry (fun _ => (.error "boom" : Except String Unit))
        (fun _ => (1 : Rat) / 2) 5 1 16).2.length = 4
    ∧ (fun (_ : Nat) => (.error "boom" : Except String Unit)) 4 = .error "boom"
    ∧ (exponential_backoff_retry (fun _ => (.error "boom" : Except String Unit))
        (fun _ => (1 : Rat) / 2) 5 1 16).2.getD 0 0 ≤ 16 + 1 := by
  obtain ⟨h1, h2, h3, h4⟩ := exponential_backoff_retry_spec
    (fun _ => (.error "boom" : Except String Unit)) (fun _ => (1 : Rat) / 2) 5 1 16
    (by norm_num)
  have hres : (exponential_backoff_retry (fun _ => (.error "boom" : Except String Unit))
      (fun _ => (1 : Rat) / 2) 5 1 16).1 = some (.error "boom") := rfl
  obtain ⟨hlen, hatt⟩ := h3 "boom" hres
  exact ⟨h1, hlen, hatt, h4 rfl rfl 0 (by rw [hlen]; norm_num)⟩

/-- C1: on equal-length columns the gap detector returns exactly the
ascending list of absolute rows `start + i` over the 0-based positions
`i` whose source survives stripping and whose marker is blank; in
particular for sources `["a","","c"]` and markers `["","","x"]` the
result is exactly `[start]`. -/
theorem find_rows_needing_audio_spec (markers sources : List String) (start : Nat)
    (h : markers.length = sources.length) :
    find_rows_needing_audio markers sources start =
      ((List.range sources.length).filter
        (fun i => (pyStrip (sources.getD i "") != "") && (pyStrip (markers.getD i "") == ""))).map
        (start + ·)
    ∧ find_rows_needing_audio ["", "", "x"] ["a", "", "c"] start = [start] := by
  constructor
  · rw [find_rows_needing_audio_eq, h, min_self]
    rfl
  · rw [find_rows_needing_audio_eq]
    have : ((List.range (min (["", "", "x"] : List String).length
        (["a", "", "c"] : List String).length)).filter
        (gapAt ["", "", "x"] ["a", "", "c"])) = [0] := by decide
    rw [this]
    simp

/-- Witness for C1 at concrete columns. -/
theorem find_rows_needing_audio_spec_witness :
    find_rows_needing_audio ["", "", "x"] ["a", "", "c"] 2 =
      ((List.range 3).filter
        (fun i => (pyStrip ((["a", "", "c"] : List String).getD i "") != "") &&
          (pyStrip ((["", "", "x"] : List String).getD i "") == ""))).map (2 + ·) :=
  (find_rows_needing_audio_spec ["", "", "x"] ["a", "", "c"] 2 (by decide)).1

theorem pyStrip_ne_empty {s : String} {c : Char} (hc : c ∈ s.data)
    (hw : c.isWhitespace = false) : pyStrip s ≠ "" := by
  intro h
  have hdata : ((s.data.dropWhile Char.isWhitespace).reverse.dropWhile
      Char.isWhitespace).reverse = ([] : List Char) := congrArg String.data h
  rw [List.reverse_eq_nil_iff, List.dropWhile_eq_nil_iff] at hdata
  have hcd : c ∈ s.data.dropWhile Char.isWhitespace := by
    have hc' := hc
    rw [← List.takeWhile_append_dropWhile (p := Char.isWhitespace) (l := s.data)] at hc'
    rcases List.mem_append.1 hc' with h1 | h2
    · have := List.mem_takeWhile_imp h1
      rw [hw] at this
      exact absurd this (by simp)
    · exact h2
  have := hdata c (List.mem_reverse.2 hcd)
  rw [hw] at this
  exact absurd this (by simp)

theorem pyStrip_hyperlink_ne_empty (link filename : String) :
    pyStrip ("=HYPERLINK(\"" ++ link ++ "\", \"" ++ filename ++ "\")") ≠ "" := by
  apply pyStrip_ne_empty (c := '=')
  · have : ('=' : Char) ∈ ("=HYPERLINK(\"" : String).data := by decide
    have h1 : ('=' : Char) ∈ ("=HYPERLINK(\"" ++ link).data := by
      rw [String.data_append]
      exact List.mem_append.2 (Or.inl this)
    have h2 : ('=' : Char) ∈ ("=HYPERLINK(\"" ++ link ++ "\", \"").data := by
      rw [String.data_append]
      exact List.mem_append.2 (Or.inl h1)
    have h3 : ('=' : Char) ∈ ("=HYPERLINK(\"" ++ link ++ "\", \"" ++ filename).data := by
      rw [String.data_append]
      exact List.mem_append.2 (Or.inl h2)
    rw [String.data_append]
    exact List.mem_append.2 (Or.inl h3)
  · decide

theorem process_row_synth_none (r : Nat) (text : String) (env : RowEnv) (enc : Encoding)
    (ht : pyStrip text ≠ "") (h : synthesize_speech_with_retry env = none) :
    process_row r text env enc = .ok [] := by
  rw [process_row, if_neg ht, h]

theorem process_row_id_error (r : Nat) (text : String) (env : RowEnv) (enc : Encoding)
    (ht : pyStrip text ≠ "") (c : String) (hc : synthesize_speech_with_retry env = some c)
    (hc0 : c ≠ "") (e : String) (he : env.idFetch = .error e) :
    process_row r text env enc = .error e := by
  rw [process_row, if_neg ht, hc]
  dsimp only
  rw [if_neg hc0, he]

theorem process_row_id_blank (r : Nat) (text : String) (env : RowEnv) (enc : Encoding)
    (ht : pyStrip text ≠ "") (c : String) (hc : synthesize_speech_with_retry env = some c)
    (hc0 : c ≠ "") (sid : String) (hid : env.idFetch = .ok sid)
    (hsid : pyStrip sid = "") :
    process_row r text env enc = .ok [] := by
  rw [process_row, if_neg ht, hc]
  dsimp only
  rw [if_neg hc0, hid]
  dsimp only
  rw [if_pos hsid]

theorem process_row_id_unparseable (r : Nat) (text : String) (env : RowEnv) (enc : Encoding)
    (ht : pyStrip text ≠ "") (c : String) (hc : synthesize_speech_with_retry env = some c)
    (hc0 : c ≠ "") (sid : String) (hid : env.idFetch = .ok sid)
    (hsid : pyStrip sid ≠ "") (hp : pyInt sid = none) :
    process_row r text env enc = .error "ValueError" := by
  rw [process_row, if_neg ht, hc]
  dsimp only
  rw [if_neg hc0, hid]
  dsimp only
  rw [if_neg hsid, hp]

theorem process_row_upload_none (r : Nat) (text : String) (env : RowEnv) (enc : Encoding)
    (ht : pyStrip text ≠ "") (c : String) (hc : synthesize_speech_with_retry env = some c)
    (hc0 : c ≠ "") (sid : String) (hid : env.idFetch = .ok sid)
    (hsid : pyStrip sid ≠ "") (nid : Int) (hn : pyInt sid = some nid)
    (hu : upload_audio_file_with_retry env = none) :
    process_row r text env enc = .ok [] := by
  rw [process_row, if_neg ht, hc]
  dsimp only
  rw [if_neg hc0, hid]
  dsimp only
  rw [if_neg hsid, hn]
  dsimp only
  rw [hu]

theorem process_row_link_empty (r : Nat) (text : String) (env : RowEnv) (enc : Encoding)
    (ht : pyStrip text ≠ "") (c : String) (hc : synthesize_speech_with_retry env = some c)
    (hc0 : c ≠ "") (sid : String) (hid : env.idFetch = .ok sid)
    (hsid : pyStrip sid ≠ "") (nid : Int) (hn : pyInt sid = some nid)
    (hu : upload_audio_file_with_retry env = some "") :
    process_row r text env enc = .ok [] := by
  rw [process_row, if_neg ht, hc]
  dsimp only
  rw [if_neg hc0, hid]
  dsimp only
  rw [if_neg hsid, hn]
  dsimp only
  rw [hu]
  dsimp only
  rw [if_pos rfl]

theorem process_row_write_none (r : Nat) (text : String) (env : RowEnv) (enc : Encoding)
    (ht : pyStrip text ≠ "") (c : String) (hc : synthesize_speech_with_retry env = some c)
    (hc0 : c ≠ "") (sid : String) (hid : env.idFetch = .ok sid)
    (hsid : pyStrip sid ≠ "") (nid : Int) (hn : pyInt sid = some nid)
    (link : String) (hu : upload_audio_file_with_retry env = some link) (hl0 : link ≠ "")
    (hw : update_sheet_cells_with_retry env.writeAttempts env.jitter 5 = none) :
    process_row r text env enc = .ok [] := by
  rw [process_row, if_neg ht, hc]
  dsimp only
  rw [if_neg hc0, hid]
  dsimp only
  rw [if_neg hsid, hn]
  dsimp only
  rw [hu]
  dsimp only
  rw [if_neg hl0, hw]

theorem process_row_success (r : Nat) (text : String) (env : RowEnv) (enc : Encoding)
    (ht : pyStrip text ≠ "") (c : String) (hc : synthesize_speech_with_retry env = some c)
    (hc0 : c ≠ "") (sid : String) (hid : env.idFetch = .ok sid)
    (hsid : pyStrip sid ≠ "") (nid : Int) (hn : pyInt sid = some nid)
    (link : String) (hu : upload_audio_file_with_retry env = some link) (hl0 : link ≠ "")
    (hw : update_sheet_cells_with_retry env.writeAttempts env.jitter 5 = some ()) :
    process_row r text env enc
      = .ok [(r, "=HYPERLINK(\"" ++ link ++ "\", \"" ++ ("sentence_" ++ pad6 nid ++ ".mp3")
          ++ "\")")] := by
  rw [process_row, if_neg ht, hc]
  dsimp only
  rw [if_neg hc0, hid]
  dsimp only
  rw [if_neg hsid, hn]
  dsimp only
  rw [hu]
  dsimp only
  rw [if_neg hl0, hw]

/-- C4: when synthesis or upload exhausts its retries (the wrapper
returns `None`), `process_row` returns with an empty mutation list — no
marker is written for a failed row — and a row whose marker is still
blank while its source is non-blank is a member of the gap set a next
run computes. -/
theorem process_row_failure_preserves_gap (row_num : Nat) (text : String) (env : RowEnv)
    (enc : Encoding) (ht : pyStrip text ≠ "") :
    (synthesize_speech_with_retry env = none → process_row row_num text env enc = .ok [])
    ∧ (∀ c sid nid, synthesize_speech_with_retry env = some c → c ≠ "" →
        env.idFetch = .ok sid → pyStrip sid ≠ "" → pyInt sid = some nid →
        upload_audio_file_with_retry env = none → process_row row_num text env enc = .ok [])
    ∧ (∀ markers sources start i, i < markers.length → i < sources.length →
        pyStrip (sources.getD i "") ≠ "" → pyStrip (markers.getD i "") = "" →
        start + i ∈ find_rows_needing_audio markers sources start) := by
  refine ⟨fun h => process_row_synth_none row_num text env enc ht h, ?_, ?_⟩
  · intro c sid nid hc hc0 hid hsid hn hu
    exact process_row_upload_none row_num text env enc ht c hc hc0 sid hid hsid nid hn hu
  · intro markers sources start i h1 h2 h3 h4
    exact (mem_find_rows_needing_audio markers sources start (start + i)).2
      ⟨i, h1, h2, h3, h4, rfl⟩

/-- Witness for C4: synthesis exhausts its retries on the demo row; the
unwritten row 2 stays in the gap of the unchanged demo columns. -/
theorem process_row_failure_preserves_gap_witness :
    process_row 2 "hola" envSynthFail Encoding.MP3 = .ok []
    ∧ 2 + 0 ∈ find_rows_needing_audio ["", "", "x"] ["hola", "", "mundo"] 2 := by
  have h := process_row_failure_preserves_gap 2 "hola" envSynthFail Encoding.MP3 (by decide)
  exact ⟨h.1 (by decide), h.2.2 ["", "", "x"] ["hola", "", "mundo"] 2 0 (by decide) (by decide)
    (by decide) (by decide)⟩

/-- C5 (amended): synthesis and upload failures and a blank sentence id
are converted into skips (`.ok []`), but an exception from the id fetch
or an unparseable sentence id escapes `process_row` uncaught, and the
driver's row loop, which has no per-row handler, then aborts the run,
leaving the remaining rows unprocessed. -/
theorem process_row_error_boundary (row_num : Nat) (text : String) (env : RowEnv)
    (enc : Encoding) (ht : pyStrip text ≠ "") :
    (synthesize_speech_with_retry env = none → process_row row_num text env enc = .ok [])
    ∧ (∀ c sid, synthesize_speech_with_retry env = some c → c ≠ "" →
        env.idFetch = .ok sid → pyStrip sid = "" → process_row row_num text env enc = .ok [])
    ∧ (∀ c e, synthesize_speech_with_retry env = some c → c ≠ "" →
        env.idFetch = .error e → process_row row_num text env enc = .error e)
    ∧ (∀ c sid, synthesize_speech_with_retry env = some c → c ≠ "" →
        env.idFetch = .ok sid → pyStrip sid ≠ "" → pyInt sid = none →
        process_row row_num text env enc = .error "ValueError")
    ∧ (∀ (args : Args) (text_col : List String) (envs : Nat → RowEnv) (st : Store)
        (r : Nat) (rs : List Nat) (e : String),
        process_row r (text_col.getD (r - args.start_row) "") (envs r) args.audio_encoding
          = .error e →
        runRows args text_col envs st (r :: rs) = ([], .crashed e, st)) := by
  refine ⟨fun h => process_row_synth_none row_num text env enc ht h, ?_, ?_, ?_, ?_⟩
  · intro c sid hc hc0 hid hsid
    exact process_row_id_blank row_num text env enc ht c hc hc0 sid hid hsid
  · intro c e hc hc0 he
    exact process_row_id_error row_num text env enc ht c hc hc0 e he
  · intro c sid hc hc0 hid hsid hp
    exact process_row_id_unparseable row_num text env enc ht c hc hc0 sid hid hsid hp
  · intro args text_col envs st r rs e hpe
    rw [runRows, hpe]

/-- Witness for C5's amended claim: a non-integer sentence id makes
`process_row` raise, and the driver loop crashes on it. -/
theorem process_row_error_boundary_witness :
    process_row 2 "hola" envBadId Encoding.MP3 = .error "ValueError"
    ∧ runRows argsDemo ["hola", "", "mundo"] (fun _ => envBadId) storeDemo [2, 4]
        = ([], .crashed "ValueError", storeDemo) := by
  have h := process_row_error_boundary 2 "hola" envBadId Encoding.MP3 (by decide)
  refine ⟨h.2.2.2.1 "audio" "abc" (by decide) (by decide) (by decide) (by decide)
    (by decide), ?_⟩
  exact h.2.2.2.2 argsDemo ["hola", "", "mundo"] (fun _ => envBadId) storeDemo 2 [4]
    "ValueError" (h.2.2.2.1 "audio" "abc" (by decide) (by decide) (by decide) (by decide)
      (by decide))

/-- Counterexample to C5 as stated: the failing fetch of row 2's
sentence id is not caught at the row boundary — `process_row` re-raises
it and the whole run crashes, instead of skipping the row and
continuing. -/
theorem process_row_uncaught_error_cex :
    process_row 2 "hola" envFetchError Encoding.MP3 = .error "HttpError"
    ∧ (mainRun argsDemo storeDemo (fun _ => envFetchError)).outcome = .crashed "HttpError"
    ∧ (mainRun argsDemo storeDemo (fun _ => envFetchError)).trace
        = [.ensureHeader, .readText, .readAudio, .computeGap, .createFolder, .validate] := by
  refine ⟨by decide, by decide, by decide⟩

/-- C7 (amended): the marker written for a successfully processed row is
always the hyperlink formula `=HYPERLINK("<link>", "<filename>")`, never
a bare URL, with `<filename>` equal to `sentence_` followed by the
sentence id zero-padded to 6 digits and the fixed suffix `.mp3`,
whatever `audio_encoding` was selected. -/
theorem process_row_marker_format (row_num : Nat) (text : String) (env : RowEnv)
    (enc : Encoding) (ht : pyStrip text ≠ "")
    (c : String) (hc : synthesize_speech_with_retry env = some c) (hc0 : c ≠ "")
    (sid : String) (hid : env.idFetch = .ok sid) (hsid : pyStrip sid ≠ "")
    (nid : Int) (hn : pyInt sid = some nid)
    (link : String) (hu : upload_audio_file_with_retry env = some link) (hl0 : link ≠ "")
    (hw : update_sheet_cells_with_retry env.writeAttempts env.jitter 5 = some ()) :
    process_row row_num text env enc
      = .ok [(row_num, "=HYPERLINK(\"" ++ link ++ "\", \""
          ++ ("sentence_" ++ pad6 nid ++ ".mp3") ++ "\")")]
    ∧ pad6 42 = "000042" :=
  ⟨process_row_success row_num text env enc ht c hc hc0 sid hid hsid nid hn link hu hl0 hw,
    by decide⟩

/-- Witness for C7's amended claim on the demo row. -/
theorem process_row_marker_format_witness :
    process_row 2 "hola" envAllOk Encoding.OGG_OPUS
      = .ok [(2, "=HYPERLINK(\"http://drive/x\", \""
          ++ ("sentence_" ++ pad6 42 ++ ".mp3") ++ "\")")] :=
  (process_row_marker_format 2 "hola" envAllOk Encoding.OGG_OPUS (by decide)
    "audio" (by decide) (by decide) "42" (by decide) (by decide) 42 (by decide)
    "http://drive/x" (by decide) (by decide) (by decide)).1

/-- Counterexample to C7 as stated: with encoding `OGG_OPUS` the
filename embedded in the marker still carries the `.mp3` suffix; it is
not the filename the spec prescribes, which would end in the container
extension the encoding implies. -/
theorem process_row_extension_cex :
    process_row 5 "hola" envAllOk Encoding.OGG_OPUS
      = .ok [(5, "=HYPERLINK(\"http://drive/x\", \"sentence_000042.mp3\")")]
    ∧ audioContainerExtension_spec Encoding.OGG_OPUS = "ogg"
    ∧ ("sentence_" ++ pad6 42 ++ ".mp3")
        ≠ ("sentence_" ++ pad6 42 ++ "." ++ audioContainerExtension_spec Encoding.OGG_OPUS) := by
  refine ⟨by decide, by decide, by decide⟩

/-- C10: when the marker-cell write itself exhausts all retry attempts,
`update_sheet_cells_with_retry` swallows the final exception and returns
`None`; `process_row` then returns normally with no sheet mutation, so
the caller sees no error and a row left with a blank marker and
non-blank source is again a member of the gap set of the next run. -/
theorem update_sheet_cells_with_retry_spec (row_num : Nat) (text : String) (env : RowEnv)
    (enc : Encoding) (e : String)
    (hfail : (exponential_backoff_retry env.writeAttempts env.jitter 5 1 16).1
      = some (.error e)) :
    update_sheet_cells_with_retry env.writeAttempts env.jitter 5 = none
    ∧ (pyStrip text ≠ "" → ∀ c sid nid link,
        synthesize_speech_with_retry env = some c → c ≠ "" →
        env.idFetch = .ok sid → pyStrip sid ≠ "" → pyInt sid = some nid →
        upload_audio_file_with_retry env = some link →
        process_row row_num text env enc = .ok [])
    ∧ (∀ markers sources start i, i < markers.length → i < sources.length →
        pyStrip (sources.getD i "") ≠ "" → pyStrip (markers.getD i "") = "" →
        start + i ∈ find_rows_needing_audio markers sources start) := by
  have hnone : update_sheet_cells_with_retry env.writeAttempts env.jitter 5 = none := by
    rw [update_sheet_cells_with_retry, hfail]
  refine ⟨hnone, ?_, ?_⟩
  · intro ht c sid nid link hc hc0 hid hsid hn hu
    by_cases hl0 : link = ""
    · subst hl0
      exact process_row_link_empty row_num text env enc ht c hc hc0 sid hid hsid nid hn hu
    · exact process_row_write_none row_num text env enc ht c hc hc0 sid hid hsid nid hn
        link hu hl0 hnone
  · intro markers sources start i h1 h2 h3 h4
    exact (mem_find_rows_needing_audio markers sources start (start + i)).2
      ⟨i, h1, h2, h3, h4, rfl⟩

/-- Witness for C10: every write attempt fails on the demo row; the row
performs no mutation and row 2 stays in the demo gap. -/
theorem update_sheet_cells_with_retry_spec_witness :
    update_sheet_cells_with_retry envWriteFail.writeAttempts envWriteFail.jitter 5 = none
    ∧ process_row 2 "hola" envWriteFail Encoding.MP3 = .ok []
    ∧ 2 + 0 ∈ find_rows_needing_audio ["", "", "x"] ["hola", "", "mundo"] 2 := by
  have h := update_sheet_cells_with_retry_spec 2 "hola" envWriteFail Encoding.MP3
    "Sheets down" (by decide)
  exact ⟨h.1, h.2.1 (by decide) "audio" "42" 42 "http://drive/x" (by decide) (by decide)
    (by decide) (by decide) (by decide) (by decide),
    h.2.2 ["", "", "x"] ["hola", "", "mundo"] 2 0 (by decide) (by decide) (by decide)
      (by decide)⟩

theorem getD_take_of_lt (l : List String) (n i : Nat) (h : i < n) :
    (l.take n).getD i "" = l.getD i "" := by
  rw [List.getD_eq_getElem?_getD, List.getD_eq_getElem?_getD, List.getElem?_take, if_pos h]

theorem padTo_getD (l : List String) (n i : Nat) :
    (padTo l n).getD i "" = l.getD i "" := by
  unfold padTo
  rw [List.getD_eq_getElem?_getD, List.getD_eq_getElem?_getD, List.getElem?_append]
  by_cases h : i < l.length
  · rw [if_pos h]
  · rw [if_neg h, List.getElem?_replicate, List.getElem?_eq_none (by omega)]
    by_cases h2 : i - l.length < n - l.length
    · rw [if_pos h2]
      rfl
    · rw [if_neg h2]

theorem padTo_length (l : List String) (n : Nat) (h : l.length ≤ n) :
    (padTo l n).length = n := by
  unfold padTo
  rw [List.length_append, List.length_replicate]
  omega

theorem dropTrailingEmpty_spec (l : List String) :
    ∃ m, l = dropTrailingEmpty l ++ List.replicate m ""
      ∧ (dropTrailingEmpty l).length + m = l.length := by
  refine ⟨(l.reverse.takeWhile (· == "")).length, ?_, ?_⟩
  · unfold dropTrailingEmpty
    have htake : l.reverse.takeWhile (· == "")
        = List.replicate (l.reverse.takeWhile (· == "")).length "" :=
      List.eq_replicate_of_mem (fun b hb => by simpa using List.mem_takeWhile_imp hb)
    conv_lhs => rw [show l = (l.reverse.takeWhile (· == "")
        ++ l.reverse.dropWhile (· == "")).reverse by
      rw [List.takeWhile_append_dropWhile, List.reverse_reverse]]
    rw [List.reverse_append]
    congr 1
    conv_lhs => rw [htake]
    rw [List.reverse_replicate]
  · unfold dropTrailingEmpty
    have hlen : l.reverse.length = (l.reverse.takeWhile (· == "")).length
        + (l.reverse.dropWhile (· == "")).length := by
      conv_lhs => rw [← List.takeWhile_append_dropWhile (p := (· == "")) (l := l.reverse)]
      rw [List.length_append]
    rw [List.length_reverse] at hlen
    rw [List.length_reverse]
    omega

theorem padTo_dropTrailingEmpty (l : List String) (n : Nat) (h : l.length ≤ n) :
    padTo (dropTrailingEmpty l) n = padTo l n := by
  obtain ⟨m, hm, hlen⟩ := dropTrailingEmpty_spec l
  unfold padTo
  conv_rhs => rw [hm]
  rw [List.append_assoc, ← List.replicate_add]
  congr 2
  rw [List.length_append, List.length_replicate]
  omega

theorem read_sheet_column_forced (col : List String) (n : Nat) :
    (read_sheet_column col (some n)).length = n
    ∧ ∀ i, i < n → (read_sheet_column col (some n)).getD i "" = col.getD i "" := by
  have htake : (col.take n).length ≤ n := by rw [List.length_take]; omega
  have hre : read_sheet_column col (some n) = padTo (col.take n) n := by
    unfold read_sheet_column apiReadColumn
    dsimp only
    exact padTo_dropTrailingEmpty _ _ htake
  constructor
  · rw [hre]
    exact padTo_length _ _ htake
  · intro i hi
    rw [hre, padTo_getD, getD_take_of_lt _ _ _ hi]

theorem setCell_getD_self (col : List String) (i : Nat) (v : String) :
    (setCell col i v).getD i "" = v := by
  unfold setCell
  have hlt : i < (padTo col (i + 1)).length := by
    unfold padTo
    rw [List.length_append, List.length_replicate]
    omega
  rw [List.getD_eq_getElem?_getD, List.getElem?_set_self hlt]
  rfl

theorem setCell_getD_other (col : List String) (i j : Nat) (v : String) (h : i ≠ j) :
    (setCell col i v).getD j "" = col.getD j "" := by
  unfold setCell
  rw [List.getD_eq_getElem?_getD, List.getElem?_set_ne h, ← List.getD_eq_getElem?_getD]
  exact padTo_getD col (i + 1) j

theorem find_rows_needing_audio_nodup (markers sources : List String) (start : Nat) :
    (find_rows_needing_audio markers sources start).Nodup := by
  rw [find_rows_needing_audio_eq]
  exact List.Nodup.map (fun a b hab => by omega)
    (List.Nodup.filter _ (List.nodup_range _))

theorem mem_gapOfStore (args : Args) (st : Store) (r : Nat) :
    r ∈ gapOfStore args st ↔
      ∃ i, i < (read_sheet_column st.textRaw none).length
        ∧ pyStrip ((read_sheet_column st.textRaw none).getD i "") ≠ ""
        ∧ pyStrip (st.audioRaw.getD i "") = ""
        ∧ r = args.start_row + i := by
  unfold gapOfStore
  dsimp only
  rw [mem_find_rows_needing_audio]
  constructor
  · rintro ⟨i, h1, h2, h3, h4, h5⟩
    rw [(read_sheet_column_forced st.audioRaw _).1] at h1
    rw [(read_sheet_column_forced st.audioRaw _).2 i h1] at h4
    exact ⟨i, h2, h3, h4, h5⟩
  · rintro ⟨i, h1, h2, h3, h4⟩
    refine ⟨i, ?_, h1, h2, ?_, h4⟩
    · rw [(read_sheet_column_forced st.audioRaw _).1]
      exact h1
    · rw [(read_sheet_column_forced st.audioRaw _).2 i h1]
      exact h3

/-- C6 (amended): the gap detector itself performs no length check —
with unequal-length inputs it silently truncates both columns to the
shorter length (the `zip`) and still returns a gap set; the equal-length
precondition is instead guaranteed by the driver, whose forced read pads
the audio column to exactly the text column's length before the detector
is called. -/
theorem find_rows_needing_audio_no_length_check (markers sources : List String)
    (start : Nat) :
    find_rows_needing_audio markers sources start
      = find_rows_needing_audio
          (markers.take (min markers.length sources.length))
          (sources.take (min markers.length sources.length)) start
    ∧ ∀ st : Store,
        (read_sheet_column st.audioRaw
            (some (read_sheet_column st.textRaw none).length)).length
          = (read_sheet_column st.textRaw none).length := by
  constructor
  · rw [find_rows_needing_audio_eq, find_rows_needing_audio_eq]
    have h1 : (markers.take (min markers.length sources.length)).length
        = min markers.length sources.length := by
      rw [List.length_take]
      omega
    have h2 : (sources.take (min markers.length sources.length)).length
        = min markers.length sources.length := by
      rw [List.length_take]
      omega
    rw [h1, h2, min_self]
    congr 1
    apply List.filter_congr
    intro i hi
    have hik : i < min markers.length sources.length := List.mem_range.1 hi
    unfold gapAt
    rw [getD_take_of_lt _ _ _ hik, getD_take_of_lt _ _ _ hik]
  · intro st
    exact (read_sheet_column_forced _ _).1

/-- Counterexample to C6 as stated: called with a 2-element marker
column and a 1-element source column, the gap detector raises nothing
and returns the ordinary gap set `[2]` of the zip-truncated columns. -/
theorem find_rows_needing_audio_unequal_cex :
    (["", "x"] : List String).length ≠ (["a"] : List String).length
    ∧ find_rows_needing_audio ["", "x"] ["a"] 2 = [2] := by
  refine ⟨by decide, by decide⟩

theorem runRows_trace_shape (args : Args) (text_col : List String) (envs : Nat → RowEnv)
    (st : Store) (rows : List Nat) :
    ∃ rs : List Nat, (runRows args text_col envs st rows).1 = rs.map Event.processRow := by
  induction rows generalizing st with
  | nil => exact ⟨[], by rw [runRows]; rfl⟩
  | cons r rs ih =>
    cases hp : process_row r (text_col.getD (r - args.start_row) "") (envs r)
        args.audio_encoding with
    | error e =>
      refine ⟨[], ?_⟩
      rw [runRows, hp]
      rfl
    | ok writes =>
      obtain ⟨rs', hrs'⟩ := ih (applyWrites args.start_row st writes)
      refine ⟨r :: rs', ?_⟩
      rw [runRows, hp]
      dsimp only
      rw [hrs']
      rfl

theorem mainRun_cases (args : Args) (st0 : Store) (envs : Nat → RowEnv) :
    (gapOfStore args st0 = [] →
      mainRun args st0 envs
        = ⟨[.ensureHeader, .readText, .readAudio, .computeGap], .nothingToDo,
            ensure_column_header st0⟩)
    ∧ (gapOfStore args st0 ≠ [] →
        validate_sheet_structure st0.textHeader "audio_file" st0.idHeader = true →
        mainRun args st0 envs
          = ⟨[.ensureHeader, .readText, .readAudio, .computeGap, .createFolder, .validate]
              ++ (runRows args (read_sheet_column st0.textRaw none) envs
                  (ensure_column_header st0)
                  (selectRows args.max_rows (gapOfStore args st0))).1,
              (runRows args (read_sheet_column st0.textRaw none) envs
                  (ensure_column_header st0)
                  (selectRows args.max_rows (gapOfStore args st0))).2.1,
              (runRows args (read_sheet_column st0.textRaw none) envs
                  (ensure_column_header st0)
                  (selectRows args.max_rows (gapOfStore args st0))).2.2⟩)
    ∧ (gapOfStore args st0 ≠ [] →
        validate_sheet_structure st0.textHeader "audio_file" st0.idHeader = false →
        mainRun args st0 envs
          = ⟨[.ensureHeader, .readText, .readAudio, .computeGap, .createFolder, .validate],
              .structuralAbort, ensure_column_header st0⟩) := by
  have hlen := (read_sheet_column_forced st0.audioRaw
    (read_sheet_column st0.textRaw none).length).1
  refine ⟨?_, ?_, ?_⟩
  · intro hg
    unfold gapOfStore at hg
    dsimp only at hg
    unfold mainRun
    dsimp only [ensure_column_header]
    rw [if_neg (fun hne => hne hlen), hg]
    rw [if_pos (show ([] : List Nat).isEmpty = true from rfl)]
  · intro hg hv
    unfold gapOfStore at hg ⊢
    dsimp only at hg
    unfold mainRun
    dsimp only [ensure_column_header]
    rw [if_neg (fun hne => hne hlen), List.isEmpty_eq_false.2 hg,
      if_neg (by decide : ¬(false = true)), hv, if_pos (rfl : true = true)]
  · intro hg hv
    unfold gapOfStore at hg
    dsimp only at hg
    unfold mainRun
    dsimp only [ensure_column_header]
    rw [if_neg (fun hne => hne hlen), List.isEmpty_eq_false.2 hg,
      if_neg (by decide : ¬(false = true)), hv,
      if_neg (by decide : ¬(false = true))]

/-- C8 (amended): the driver's order is EnsureHeader → ReadState →
ComputeGap → (exit when empty) → CreateFolder → ValidateStructure →
ProcessRow*: the case-insensitive header check does run before any row
is processed — a bad header aborts with no `processRow` event — but it
runs after both columns are read and after the gap is computed, and it
is skipped entirely when the gap is empty. -/
theorem mainRun_order (args : Args) (st0 : Store) (envs : Nat → RowEnv) :
    (∃ rs : List Nat,
      (mainRun args st0 envs).trace = [.ensureHeader, .readText, .readAudio, .computeGap]
      ∨ (mainRun args st0 envs).trace
          = [.ensureHeader, .readText, .readAudio, .computeGap, .createFolder, .validate]
            ++ rs.map Event.processRow)
    ∧ (validate_sheet_structure st0.textHeader "audio_file" st0.idHeader = false →
        ∀ n, Event.processRow n ∉ (mainRun args st0 envs).trace) := by
  obtain ⟨h1, h2, h3⟩ := mainRun_cases args st0 envs
  by_cases hg : gapOfStore args st0 = []
  · refine ⟨⟨[], Or.inl (by rw [h1 hg])⟩, ?_⟩
    intro _ n
    rw [h1 hg]
    simp
  · by_cases hv : validate_sheet_structure st0.textHeader "audio_file" st0.idHeader = true
    · obtain ⟨rs, hrs⟩ := runRows_trace_shape args (read_sheet_column st0.textRaw none)
        envs (ensure_column_header st0) (selectRows args.max_rows (gapOfStore args st0))
      refine ⟨⟨rs, Or.inr ?_⟩, ?_⟩
      · rw [h2 hg hv]
        dsimp only
        rw [hrs]
      · intro hfalse
        rw [hfalse] at hv
        exact absurd hv (by decide)
    · have hv' : validate_sheet_structure st0.textHeader "audio_file" st0.idHeader
          = false := by
        cases hb : validate_sheet_structure st0.textHeader "audio_file" st0.idHeader with
        | true => exact absurd hb hv
        | false => rfl
      refine ⟨⟨[], Or.inr ?_⟩, ?_⟩
      · rw [h3 hg hv']
        rfl
      · intro _ n
        rw [h3 hg hv']
        simp

/-- Witness for C8's amended claim: a mismatched text header lets no row
be processed. -/
theorem mainRun_order_witness :
    Event.processRow 2 ∉ (mainRun argsDemo storeBadHeader (fun _ => envAllOk)).trace :=
  (mainRun_order argsDemo storeBadHeader (fun _ => envAllOk)).2 (by decide) 2

/-- Counterexample to C8 as stated: on the demo run the trace shows both
column reads and the gap computation occurring strictly before the
header validation, so the validation is not performed before the column
state is read. -/
theorem mainRun_validate_after_read_cex :
    (mainRun argsDemo storeDemo (fun _ => envAllOk)).trace
      = [.ensureHeader, .readText, .readAudio, .computeGap, .createFolder, .validate,
          .processRow 2]
    ∧ (mainRun argsDemo storeDemo (fun _ => envAllOk)).trace.indexOf Event.computeGap
        < (mainRun argsDemo storeDemo (fun _ => envAllOk)).trace.indexOf Event.validate
    ∧ (mainRun argsDemo storeDemo (fun _ => envAllOk)).trace.indexOf Event.readText
        < (mainRun argsDemo storeDemo (fun _ => envAllOk)).trace.indexOf Event.validate := by
  refine ⟨by decide, by decide, by decide⟩

theorem runRows_success (args : Args) (text_col : List String) (envs : Nat → RowEnv)
    (rows : List Nat) :
    ∀ st : Store, rows.Nodup → (∀ r ∈ rows, args.start_row ≤ r) →
      (∀ r ∈ rows, pyStrip (text_col.getD (r - args.start_row) "") ≠ "") →
      (∀ r ∈ rows, rowSucceeds (envs r)) →
      (runRows args text_col envs st rows).2.1 = Outcome.completed
      ∧ (∀ r ∈ rows,
          pyStrip ((runRows args text_col envs st rows).2.2.audioRaw.getD
            (r - args.start_row) "") ≠ "")
      ∧ (∀ j : Nat, args.start_row + j ∉ rows →
          (runRows args text_col envs st rows).2.2.audioRaw.getD j ""
            = st.audioRaw.getD j "")
      ∧ (runRows args text_col envs st rows).2.2.textRaw = st.textRaw := by
  induction rows with
  | nil =>
    intro st _ _ _ _
    refine ⟨rfl, ?_, fun j _ => rfl, rfl⟩
    intro r hr
    exact absurd hr (List.not_mem_nil r)
  | cons r rs ih =>
    intro st hnd hge htext hsucc
    obtain ⟨⟨c, hc, hc0⟩, ⟨sid, nid, hid, hsid, hn⟩, ⟨link, hl, hl0⟩, hw⟩ :=
      hsucc r (List.mem_cons_self r rs)
    have htr : pyStrip (text_col.getD (r - args.start_row) "") ≠ "" :=
      htext r (List.mem_cons_self r rs)
    have hger : args.start_row ≤ r := hge r (List.mem_cons_self r rs)
    obtain ⟨v, hpr, hvne⟩ :
        ∃ v, process_row r (text_col.getD (r - args.start_row) "") (envs r)
            args.audio_encoding = .ok [(r, v)] ∧ pyStrip v ≠ "" :=
      ⟨_, process_row_success r (text_col.getD (r - args.start_row) "") (envs r)
          args.audio_encoding htr c hc hc0 sid hid hsid nid hn link hl hl0 hw,
        pyStrip_hyperlink_ne_empty link ("sentence_" ++ pad6 nid ++ ".mp3")⟩
    have hstep : runRows args text_col envs st (r :: rs)
        = (Event.processRow r ::
            (runRows args text_col envs (applyWrites args.start_row st [(r, v)]) rs).1,
           (runRows args text_col envs (applyWrites args.start_row st [(r, v)]) rs).2) := by
      rw [runRows, hpr]
    have hmidA : (applyWrites args.start_row st [(r, v)]).audioRaw
        = setCell st.audioRaw (r - args.start_row) v := rfl
    have hmidT : (applyWrites args.start_row st [(r, v)]).textRaw = st.textRaw := rfl
    obtain ⟨ih1, ih2, ih3, ih4⟩ := ih (applyWrites args.start_row st [(r, v)])
      hnd.of_cons (fun x hx => hge x (List.mem_cons_of_mem r hx))
      (fun x hx => htext x (List.mem_cons_of_mem r hx))
      (fun x hx => hsucc x (List.mem_cons_of_mem r hx))
    refine ⟨?_, ?_, ?_, ?_⟩
    · rw [hstep]
      exact ih1
    · intro x hx
      rw [hstep]
      dsimp only
      rcases List.mem_cons.1 hx with rfl | hx'
      · have hnr : args.start_row + (x - args.start_row) ∉ rs := by
          have hxx : args.start_row + (x - args.start_row) = x := by omega
          rw [hxx]
          exact (List.nodup_cons.1 hnd).1
        rw [ih3 (x - args.start_row) hnr, hmidA, setCell_getD_self]
        exact hvne
      · exact ih2 x hx'
    · intro j hj
      rw [hstep]
      dsimp only
      have hjr : args.start_row + j ∉ rs := fun hmem => hj (List.mem_cons_of_mem r hmem)
      have hjne : args.start_row + j ≠ r := fun he => hj (he ▸ List.mem_cons_self r rs)
      have hne2 : r - args.start_row ≠ j := by
        intro he
        apply hjne
        omega
      rw [ih3 j hjr, hmidA, setCell_getD_other _ _ _ _ hne2]
    · rw [hstep]
      dsimp only
      rw [ih4, hmidT]

/-- C2: with no cap and valid headers, if every gap row's external calls
succeed, then after one driver run the gap recomputed on the resulting
store is empty, and a second run on that store ends in the
nothing-to-do outcome without processing any row. -/
theorem mainRun_idempotent (args : Args) (st0 : Store) (envs : Nat → RowEnv)
    (hmax : args.max_rows = none)
    (hval : validate_sheet_structure st0.textHeader "audio_file" st0.idHeader = true)
    (hsucc : ∀ r ∈ gapOfStore args st0, rowSucceeds (envs r)) :
    gapOfStore args (mainRun args st0 envs).store = []
    ∧ (mainRun args (mainRun args st0 envs).store envs).outcome = Outcome.nothingToDo
    ∧ ∀ n, Event.processRow n ∉ (mainRun args (mainRun args st0 envs).store envs).trace := by
  obtain ⟨h1, h2, _⟩ := mainRun_cases args st0 envs
  by_cases hg : gapOfStore args st0 = []
  · have e1 := h1 hg
    have hstore : (mainRun args st0 envs).store = ensure_column_header st0 := by rw [e1]
    have hg1 : gapOfStore args (ensure_column_header st0) = [] := hg
    obtain ⟨h1', _, _⟩ := mainRun_cases args (ensure_column_header st0) envs
    have e2 := h1' hg1
    refine ⟨by rw [hstore]; exact hg1, by rw [hstore, e2], ?_⟩
    intro n
    rw [hstore, e2]
    simp
  · have e1 := h2 hg hval
    rw [hmax] at e1
    have hsel : selectRows none (gapOfStore args st0) = gapOfStore args st0 := rfl
    rw [hsel] at e1
    have hnd : (gapOfStore args st0).Nodup := by
      unfold gapOfStore
      dsimp only
      exact find_rows_needing_audio_nodup _ _ _
    have hge : ∀ r ∈ gapOfStore args st0, args.start_row ≤ r := by
      intro r hr
      obtain ⟨i, _, _, _, hri⟩ := (mem_gapOfStore args st0 r).1 hr
      omega
    have htext : ∀ r ∈ gapOfStore args st0,
        pyStrip ((read_sheet_column st0.textRaw none).getD (r - args.start_row) "")
          ≠ "" := by
      intro r hr
      obtain ⟨i, hi, hit, _, hri⟩ := (mem_gapOfStore args st0 r).1 hr
      have hii : r - args.start_row = i := by omega
      rw [hii]
      exact hit
    obtain ⟨ho, hset, hkeep, htraw⟩ := runRows_success args
      (read_sheet_column st0.textRaw none) envs (gapOfStore args st0)
      (ensure_column_header st0) hnd hge htext hsucc
    have hstore : (mainRun args st0 envs).store
        = (runRows args (read_sheet_column st0.textRaw none) envs
            (ensure_column_header st0) (gapOfStore args st0)).2.2 := by
      rw [e1]
    have htraw' : (runRows args (read_sheet_column st0.textRaw none) envs
        (ensure_column_header st0) (gapOfStore args st0)).2.2.textRaw
        = st0.textRaw := htraw
    have hgapF : gapOfStore args
        (runRows args (read_sheet_column st0.textRaw none) envs
          (ensure_column_header st0) (gapOfStore args st0)).2.2 = [] := by
      rw [List.eq_nil_iff_forall_not_mem]
      intro r hr
      obtain ⟨i, hi, hit, him, hri⟩ := (mem_gapOfStore args _ r).1 hr
      rw [htraw'] at hi hit
      by_cases hmem : args.start_row + i ∈ gapOfStore args st0
      · have hne := hset (args.start_row + i) hmem
        have hieq : args.start_row + i - args.start_row = i := by omega
        rw [hieq] at hne
        exact hne him
      · have hkeep' := hkeep i hmem
        have hens : (ensure_column_header st0).audioRaw = st0.audioRaw := rfl
        rw [hens] at hkeep'
        rw [hkeep'] at him
        exact hmem ((mem_gapOfStore args st0 (args.start_row + i)).2 ⟨i, hi, hit, him, rfl⟩)
    obtain ⟨h1', _, _⟩ := mainRun_cases args
      (runRows args (read_sheet_column st0.textRaw none) envs
        (ensure_column_header st0) (gapOfStore args st0)).2.2 envs
    refine ⟨by rw [hstore]; exact hgapF, by rw [hstore, h1' hgapF], ?_⟩
    intro n
    rw [hstore, h1' hgapF]
    simp

/-- Witness for C2 on the demo sheet: one gap row, every call succeeds,
the second run has an empty gap and does nothing. -/
theorem mainRun_idempotent_witness :
    gapOfStore argsDemo (mainRun argsDemo storeDemo (fun _ => envAllOk)).store = []
    ∧ (mainRun argsDemo (mainRun argsDemo storeDemo (fun _ => envAllOk)).store
        (fun _ => envAllOk)).outcome = Outcome.nothingToDo := by
  have h := mainRun_idempotent argsDemo storeDemo (fun _ => envAllOk) rfl (by decide)
    (fun r _ => show rowSucceeds envAllOk from
      ⟨⟨"audio", by decide, by decide⟩,
        ⟨"42", 42, by decide, by decide, by decide⟩,
        ⟨"http://drive/x", by decide, by decide⟩, by decide⟩)
  exact ⟨h.1, h.2.1⟩

theorem translationsResolved_iff (n : Nat) (v : List (List String)) :
    translationsResolved n v = true ↔
      v.length = n ∧ ∀ row ∈ v, row ≠ [] ∧ pyStartsWith (row.headD "") "=" = false := by
  unfold translationsResolved
  rw [Bool.and_eq_true, beq_iff_eq, List.all_eq_true]
  constructor
  · rintro ⟨hlen, hall⟩
    refine ⟨hlen, fun row hr => ?_⟩
    have h := hall row hr
    rw [Bool.and_eq_true, Bool.not_eq_true', Bool.not_eq_true'] at h
    exact ⟨List.isEmpty_eq_false.1 h.1, h.2⟩
  · rintro ⟨hlen, hall⟩
    refine ⟨hlen, fun row hr => ?_⟩
    obtain ⟨h1, h2⟩ := hall row hr
    rw [Bool.and_eq_true, Bool.not_eq_true', Bool.not_eq_true']
    exact ⟨List.isEmpty_eq_false.2 h1, h2⟩

theorem wait_for_translations_some (reads : Nat → List (List String)) (n : Nat) :
    ∀ (fuel i : Nat) (v : List (List String)) (s : List Nat),
      wait_for_translations reads n i fuel = (some v, s) →
      translationsResolved n v = true
      ∧ ∃ k, k < fuel ∧ v = reads (i + k)
          ∧ (∀ m, m < k → translationsResolved n (reads (i + m)) = false)
          ∧ s = List.replicate k 15 := by
  intro fuel
  induction fuel with
  | zero =>
    intro i v s h
    rw [wait_for_translations] at h
    exact absurd h (by simp)
  | succ f ih =>
    intro i v s h
    rw [wait_for_translations] at h
    dsimp only at h
    by_cases hres : translationsResolved n (reads i) = true
    · rw [if_pos hres] at h
      rw [Prod.ext_iff] at h
      obtain ⟨hv, hs⟩ := h
      dsimp only at hv hs
      rw [Option.some_inj] at hv
      refine ⟨hv ▸ hres, 0, by omega, ?_, ?_, ?_⟩
      · rw [← hv, Nat.add_zero]
      · intro m hm
        exact absurd hm (by omega)
      · rw [← hs]
        rfl
    · rw [if_neg hres] at h
      rw [Prod.ext_iff] at h
      obtain ⟨h1, h2⟩ := h
      dsimp only at h1 h2
      have heq : wait_for_translations reads n (i + 1) f
          = (some v, (wait_for_translations reads n (i + 1) f).2) :=
        Prod.ext_iff.2 ⟨h1, rfl⟩
      obtain ⟨hres', k, hk, hv, hall, hs⟩ := ih (i + 1) v
        (wait_for_translations reads n (i + 1) f).2 heq
      refine ⟨hres', k + 1, by omega, ?_, ?_, ?_⟩
      · rw [hv]
        congr 1
        omega
      · intro m hm
        cases m with
        | zero =>
          rw [Nat.add_zero]
          cases hb : translationsResolved n (reads i) with
          | true => exact absurd hb hres
          | false => rfl
        | succ m' =>
          have := hall m' (by omega)
          rwa [show i + (m' + 1) = i + 1 + m' by omega]
      · rw [← h2, hs, List.replicate_succ]

theorem wait_for_translations_none (reads : Nat → List (List String)) (n : Nat) :
    ∀ (fuel i : Nat), (∀ k, k < fuel → translationsResolved n (reads (i + k)) = false) →
      wait_for_translations reads n i fuel = (none, List.replicate fuel 15) := by
  intro fuel
  induction fuel with
  | zero =>
    intro i _
    rw [wait_for_translations]
    rfl
  | succ f ih =>
    intro i hall
    rw [wait_for_translations]
    dsimp only
    have h0 : translationsResolved n (reads i) = false := by
      have := hall 0 (by omega)
      rwa [Nat.add_zero] at this
    rw [h0, if_neg (by decide : ¬(false = true))]
    rw [ih (i + 1) (fun k hk => by
      have := hall (k + 1) (by omega)
      rwa [show i + (k + 1) = i + 1 + k by omega] at this)]
    rw [List.replicate_succ]

/-- C9: the poller returns the read values exactly when a read satisfies
the condition (count equals `expected_count`, every cell non-empty, no
cell beginning with `=`), having slept a fixed 15 seconds after each
earlier unsatisfying read; while every read fails the condition it keeps
sleeping and re-reading, for every bound `fuel` on the number of cycles
(the Python loop is unbounded), so it never returns an unresolved
formula. -/
theorem wait_for_translations_spec (reads : Nat → List (List String))
    (num_rows fuel : Nat) :
    (∀ v s, wait_for_translations reads num_rows 0 fuel = (some v, s) →
      (v.length = num_rows ∧ ∀ row ∈ v, row ≠ []
          ∧ pyStartsWith (row.headD "") "=" = false)
      ∧ ∃ k, k < fuel ∧ v = reads k
          ∧ (∀ m, m < k → translationsResolved num_rows (reads m) = false)
          ∧ s = List.replicate k 15)
    ∧ ((∀ k, k < fuel → translationsResolved num_rows (reads k) = false) →
        wait_for_translations reads num_rows 0 fuel
          = (none, List.replicate fuel 15)) := by
  constructor
  · intro v s h
    obtain ⟨hres, k, hk, hv, hall, hs⟩ :=
      wait_for_translations_some reads num_rows fuel 0 v s h
    refine ⟨(translationsResolved_iff num_rows v).1 hres, k, hk, ?_, ?_, hs⟩
    · simpa using hv
    · intro m hm
      simpa using hall m hm
  · intro hall
    exact wait_for_translations_none reads num_rows fuel 0
      (fun k hk => by simpa using hall k hk)

/-- Witness for C9: the first read still holds a formula, the second is
resolved; the poller sleeps once for 15 seconds and returns the second
read. -/
theorem wait_for_translations_spec_witness :
    (([["hola"]] : List (List String)).length = 1
        ∧ ∀ row ∈ ([["hola"]] : List (List String)), row ≠ []
            ∧ pyStartsWith (row.headD "") "=" = false)
    ∧ ∃ k, k < 2 ∧ ([["hola"]] : List (List String)) = demoReads k
        ∧ (∀ m, m < k → translationsResolved 1 (demoReads m) = false)
        ∧ [15] = List.replicate k 15 :=
  (wait_for_translations_spec demoReads 1 2).1 [["hola"]] [15] (by decide)

end TenK
